import Mathlib

/-
Verification of the two-player pricing-game engine of the GameTheory
repository.

The repository has two engine variants:
  * gametheory.py   - the canonical sigmoid, cost-aware variant, whose payoffs
    are real numbers built from the real exponential function; it is embedded
    below over the reals, with np.exp embedded as Real.exp.
  * decisiontree.py - the simpler linear, penalty-bearing variant, whose
    arithmetic is entirely rational; it is embedded over the rationals and is
    fully executable.

The analyzer algorithms of gametheory.py (find_nash_equilibria,
find_dominant_strategies, analyze_repeated_game) consume a finished payoff
matrix and only compare and combine its entries; they are embedded
generically over any linear ordered field, so the theorems about them apply
both to the real payoff matrix of the source and to executable rational
instances used by the witnesses.

Floating point numbers of the source are modelled as exact real or rational
values, the usual convention for a shallow embedding of numeric Python code.
-/

/-- The three pricing tiers of both source files, in the insertion order of
the Python dictionaries: High, Medium, Low. -/
inductive Strategy where
  | High
  | Medium
  | Low
deriving DecidableEq, Fintype

/-- The strategy enumeration order used by every loop of the source:
list(self.price_tiers.keys()) of the dictionary of High, Medium, Low. -/
def strategies : List Strategy := [Strategy.High, Strategy.Medium, Strategy.Low]

theorem strategies_complete (s : Strategy) : s ∈ strategies := by
  cases s <;> simp [strategies]

/-- Constructor parameters of GameTheorySimulator (gametheory.py line 4):
the three tier prices, demand elasticity, market size, rate of return and
windfall. -/
structure Config where
  priceHigh : ℝ
  priceMedium : ℝ
  priceLow : ℝ
  demand_elasticity : ℝ
  market_size : ℝ
  rate_of_return : ℝ
  windfall : ℝ

/-- Price of a tier: self.price_tiers[strategy]. -/
def Config.price (cfg : Config) : Strategy → ℝ
  | Strategy.High => cfg.priceHigh
  | Strategy.Medium => cfg.priceMedium
  | Strategy.Low => cfg.priceLow

/-- max(self.price_tiers.values()) of gametheory.py line 84. -/
def Config.maxPrice (cfg : Config) : ℝ :=
  max cfg.priceHigh (max cfg.priceMedium cfg.priceLow)

/-- calculate_market_share of gametheory.py lines 25-45: a sigmoid response
to the price difference, normalized by the mean tier price, scaled by the
maximal adjustment 0.4 and clipped to the band from 0.1 to 0.9
(np.clip(share, 0.1, 0.9) = min (max share 0.1) 0.9). -/
noncomputable def calculate_market_share (cfg : Config) (price_diff : ℝ) : ℝ :=
  let base_share : ℝ := 0.5
  let max_adjustment : ℝ := 0.4
  let avg_price : ℝ := (cfg.priceHigh + cfg.priceMedium + cfg.priceLow) / 3
  let normalized_diff : ℝ := price_diff / avg_price
  let adjustment : ℝ :=
    max_adjustment * (2 / (1 + Real.exp (-(cfg.demand_elasticity * normalized_diff))) - 1)
  let share : ℝ := base_share + adjustment
  min (max share 0.1) 0.9

/-- Cost factors of gametheory.py lines 61-65. -/
def cost_factor : Strategy → ℝ
  | Strategy.High => 0.6
  | Strategy.Medium => 0.7
  | Strategy.Low => 0.8

/-- The pair (waymo_share, cruise_share) computed at the top of
calculate_payoffs (gametheory.py lines 52-54): Waymo gets the sigmoid share
of the price difference price[c] - price[w], Cruise the complement. -/
noncomputable def market_shares (cfg : Config) (w c : Strategy) : ℝ × ℝ :=
  let price_diff := cfg.price c - cfg.price w
  let waymo_share := calculate_market_share cfg price_diff
  (waymo_share, 1 - waymo_share)

/-- calculate_payoffs of gametheory.py lines 47-81, up to but excluding the
extreme-price-differential step: revenues from shares, costs by tier factor,
windfall for a High strategy, then scaling by 1 + rate of return. -/
noncomputable def payoffs_before_differential (cfg : Config) (w c : Strategy) : ℝ × ℝ :=
  let shares := market_shares cfg w c
  let waymo_revenue := shares.1 * cfg.market_size * cfg.price w
  let cruise_revenue := shares.2 * cfg.market_size * cfg.price c
  let waymo_costs := waymo_revenue * cost_factor w
  let cruise_costs := cruise_revenue * cost_factor c
  let waymo_profit := waymo_revenue - waymo_costs
  let cruise_profit := cruise_revenue - cruise_costs
  let waymo_profit := waymo_profit + (if w = Strategy.High then cfg.windfall else 0)
  let cruise_profit := cruise_profit + (if c = Strategy.High then cfg.windfall else 0)
  (waymo_profit * (1 + cfg.rate_of_return), cruise_profit * (1 + cfg.rate_of_return))

/-- calculate_payoffs of gametheory.py lines 47-90 in full: the payoffs
before the differential step, then the market-share penalty for extreme
price differences of lines 83-88, which touches only the Waymo component. -/
noncomputable def calculate_payoffs (cfg : Config) (w c : Strategy) : ℝ × ℝ :=
  let pre := payoffs_before_differential cfg w c
  let price_diff := cfg.price c - cfg.price w
  if cfg.maxPrice * 0.4 < |price_diff| then
    if w = Strategy.Low ∧ c = Strategy.High then (pre.1 * 0.9, pre.2)
    else if w = Strategy.High ∧ c = Strategy.Low then (pre.1 * 0.85, pre.2)
    else pre
  else pre

/-- generate_payoff_matrix of gametheory.py lines 92-101: one entry per
ordered pair of strategies, outer loop over Waymo, inner loop over Cruise. -/
noncomputable def generate_payoff_matrix (cfg : Config) :
    List ((Strategy × Strategy) × (ℝ × ℝ)) :=
  strategies.flatMap fun w =>
    strategies.map fun c => ((w, c), calculate_payoffs cfg w c)

/-- The default parameter set of the repository: tiers 25, 20, 15, demand
elasticity 0.3, market size 1000000, rate of return 0.05, windfall 0. -/
noncomputable def cfgDefault : Config :=
  { priceHigh := 25, priceMedium := 20, priceLow := 15,
    demand_elasticity := 0.3, market_size := 1000000,
    rate_of_return := 0.05, windfall := 0 }

/-- C2: for every valid configuration (positive prices, positive elasticity,
positive market size) the generated payoff matrix is total over the nine
strategy pairs, with the payoff of each pair recorded under its key, and for
every strategy profile the computed market shares sum to exactly 1 with both
shares inside the band from 0.1 to 0.9. -/
theorem generate_payoff_matrix_total_and_shares (cfg : Config)
    (hH : 0 < cfg.priceHigh) (hM : 0 < cfg.priceMedium) (hL : 0 < cfg.priceLow)
    (hE : 0 < cfg.demand_elasticity) (hS : 0 < cfg.market_size) :
    (generate_payoff_matrix cfg).length = 9
    ∧ (∀ w c : Strategy,
        List.lookup (w, c) (generate_payoff_matrix cfg) = some (calculate_payoffs cfg w c))
    ∧ (∀ w c : Strategy,
        (market_shares cfg w c).1 + (market_shares cfg w c).2 = 1
        ∧ 0.1 ≤ (market_shares cfg w c).1 ∧ (market_shares cfg w c).1 ≤ 0.9
        ∧ 0.1 ≤ (market_shares cfg w c).2 ∧ (market_shares cfg w c).2 ≤ 0.9) := by
  refine ⟨rfl, ?_, ?_⟩
  · intro w c
    cases w <;> cases c <;> rfl
  · intro w c
    have hlo : (0.1 : ℝ) ≤ calculate_market_share cfg (cfg.price c - cfg.price w) := by
      unfold calculate_market_share
      exact le_min (le_max_right _ _) (by norm_num)
    have hhi : calculate_market_share cfg (cfg.price c - cfg.price w) ≤ 0.9 := by
      unfold calculate_market_share
      exact min_le_right _ _
    unfold market_shares
    refine ⟨by ring, hlo, hhi, by linarith, by linarith⟩

/-- Witness for C2 at the default configuration. -/
theorem generate_payoff_matrix_total_and_shares_witness :
    ((0 : ℝ) < 25 ∧ (0 : ℝ) < 20 ∧ (0 : ℝ) < 15 ∧ (0 : ℝ) < 0.3 ∧ (0 : ℝ) < 1000000)
    ∧ (generate_payoff_matrix cfgDefault).length = 9
    ∧ (market_shares cfgDefault Strategy.High Strategy.Low).1
        + (market_shares cfgDefault Strategy.High Strategy.Low).2 = 1 := by
  have h := generate_payoff_matrix_total_and_shares cfgDefault
    (by norm_num [cfgDefault]) (by norm_num [cfgDefault]) (by norm_num [cfgDefault])
    (by norm_num [cfgDefault]) (by norm_num [cfgDefault])
  exact ⟨by norm_num, h.1, (h.2.2 Strategy.High Strategy.Low).1⟩

/-- C4 counterexample: in the canonical sigmoid, cost-aware computation of
gametheory.py there is no 50000 loss penalty at all.  At the default
configuration and the profile (Low, Low) the price difference is zero, so
the Waymo share is exactly 0.5 and the Waymo revenue 7500000 is below
0.8 * marketSize * maxPrice = 20000000; the claim therefore demands a payoff
of 1575000 - 50000, but the source computes exactly
0.5 * 1000000 * 15 * (1 - 0.8) * 1.05 = 1575000 with nothing subtracted. -/
theorem canonical_no_loss_penalty_counterexample :
    (calculate_payoffs cfgDefault Strategy.Low Strategy.Low).1 = 1575000
    ∧ (market_shares cfgDefault Strategy.Low Strategy.Low).1
        * cfgDefault.market_size * cfgDefault.price Strategy.Low
        < 0.8 * (cfgDefault.market_size * cfgDefault.maxPrice)
    ∧ (1575000 : ℝ) ≠ 1575000 - 50000 := by
  have hshare : (market_shares cfgDefault Strategy.Low Strategy.Low).1 = 0.5 := by
    unfold market_shares calculate_market_share
    norm_num [cfgDefault, Config.price, Real.exp_zero]
  refine ⟨?_, ?_, by norm_num⟩
  · unfold calculate_payoffs payoffs_before_differential
    rw [if_neg (by norm_num [cfgDefault, Config.price, Config.maxPrice])]
    simp only [market_shares] at hshare ⊢
    rw [hshare]
    norm_num [cfgDefault, Config.price, cost_factor]
  · rw [hshare]
    norm_num [cfgDefault, Config.price, Config.maxPrice]

/-- C6: the extreme-price-differential step of gametheory.py lines 83-88
modifies only the Waymo payoff.  Whenever the absolute price difference
exceeds 0.4 times the maximal tier price, the Waymo payoff is multiplied by
0.9 when Waymo plays Low against High and by 0.85 when Waymo plays High
against Low, and is unchanged in every other case; the Cruise payoff always
equals its value before this step. -/
theorem extreme_differential_penalty_asymmetric (cfg : Config) (w c : Strategy) :
    ((calculate_payoffs cfg w c).2 = (payoffs_before_differential cfg w c).2)
    ∧ (cfg.maxPrice * 0.4 < |cfg.price c - cfg.price w| →
        ((w = Strategy.Low ∧ c = Strategy.High →
            (calculate_payoffs cfg w c).1 = (payoffs_before_differential cfg w c).1 * 0.9)
         ∧ (w = Strategy.High ∧ c = Strategy.Low →
            (calculate_payoffs cfg w c).1 = (payoffs_before_differential cfg w c).1 * 0.85)
         ∧ (¬(w = Strategy.Low ∧ c = Strategy.High) → ¬(w = Strategy.High ∧ c = Strategy.Low) →
            (calculate_payoffs cfg w c).1 = (payoffs_before_differential cfg w c).1)))
    ∧ (¬(cfg.maxPrice * 0.4 < |cfg.price c - cfg.price w|) →
        (calculate_payoffs cfg w c).1 = (payoffs_before_differential cfg w c).1) := by
  by_cases hp : cfg.maxPrice * 0.4 < |cfg.price c - cfg.price w|
  · refine ⟨?_, fun _ => ⟨?_, ?_, ?_⟩, fun hn => absurd hp hn⟩
    · simp only [calculate_payoffs]
      rw [if_pos hp]
      split_ifs <;> rfl
    · rintro ⟨hw, hc⟩
      subst hw; subst hc
      simp only [calculate_payoffs]
      rw [if_pos hp]
      simp
    · rintro ⟨hw, hc⟩
      subst hw; subst hc
      simp only [calculate_payoffs]
      rw [if_pos hp]
      simp
    · intro hn1 hn2
      simp only [calculate_payoffs]
      rw [if_pos hp, if_neg hn1, if_neg hn2]
  · refine ⟨?_, fun hpp => absurd hpp hp, fun _ => ?_⟩
    · simp only [calculate_payoffs]
      rw [if_neg hp]
    · simp only [calculate_payoffs]
      rw [if_neg hp]

/-- A configuration with a wide tier spread, used to exercise the
extreme-differential branch: prices 30, 20, 10 make the price difference of
the profile (Low, High) equal to 20, above 0.4 * 30 = 12. -/
noncomputable def cfgWide : Config :=
  { priceHigh := 30, priceMedium := 20, priceLow := 10,
    demand_elasticity := 0.3, market_size := 1000000,
    rate_of_return := 0.05, windfall := 0 }

/-- Witness for C6 at the wide-spread configuration and profile (Low, High). -/
theorem extreme_differential_penalty_asymmetric_witness :
    (cfgWide.maxPrice * 0.4 < |cfgWide.price Strategy.High - cfgWide.price Strategy.Low|)
    ∧ (calculate_payoffs cfgWide Strategy.Low Strategy.High).1
        = (payoffs_before_differential cfgWide Strategy.Low Strategy.High).1 * 0.9
    ∧ (calculate_payoffs cfgWide Strategy.Low Strategy.High).2
        = (payoffs_before_differential cfgWide Strategy.Low Strategy.High).2 := by
  have hcond : cfgWide.maxPrice * 0.4 < |cfgWide.price Strategy.High - cfgWide.price Strategy.Low| := by
    norm_num [cfgWide, Config.price, Config.maxPrice]
  have h := extreme_differential_penalty_asymmetric cfgWide Strategy.Low Strategy.High
  exact ⟨hcond, (h.2.1 hcond).1 ⟨rfl, rfl⟩, h.1⟩

/-- C10: the sigmoid market-share function is monotone in the price
difference whenever all tier prices and the demand elasticity are positive,
and the share at price difference zero is exactly 0.5. -/
theorem calculate_market_share_monotone (cfg : Config)
    (hH : 0 < cfg.priceHigh) (hM : 0 < cfg.priceMedium) (hL : 0 < cfg.priceLow)
    (hE : 0 < cfg.demand_elasticity) :
    (∀ d1 d2 : ℝ, d1 ≤ d2 →
        calculate_market_share cfg d1 ≤ calculate_market_share cfg d2)
    ∧ calculate_market_share cfg 0 = 0.5 := by
  have havg : (0 : ℝ) < (cfg.priceHigh + cfg.priceMedium + cfg.priceLow) / 3 := by
    linarith
  constructor
  · intro d1 d2 hd
    unfold calculate_market_share
    have hexp : Real.exp (-(cfg.demand_elasticity
          * (d2 / ((cfg.priceHigh + cfg.priceMedium + cfg.priceLow) / 3))))
        ≤ Real.exp (-(cfg.demand_elasticity
          * (d1 / ((cfg.priceHigh + cfg.priceMedium + cfg.priceLow) / 3)))) := by
      apply Real.exp_le_exp.mpr
      have h1 : d1 / ((cfg.priceHigh + cfg.priceMedium + cfg.priceLow) / 3)
          ≤ d2 / ((cfg.priceHigh + cfg.priceMedium + cfg.priceLow) / 3) :=
        div_le_div_of_nonneg_right hd havg.le
      nlinarith
    have hpos1 : (0 : ℝ) < 1 + Real.exp (-(cfg.demand_elasticity
        * (d1 / ((cfg.priceHigh + cfg.priceMedium + cfg.priceLow) / 3)))) := by
      have := Real.exp_pos (-(cfg.demand_elasticity
        * (d1 / ((cfg.priceHigh + cfg.priceMedium + cfg.priceLow) / 3))))
      linarith
    have hpos2 : (0 : ℝ) < 1 + Real.exp (-(cfg.demand_elasticity
        * (d2 / ((cfg.priceHigh + cfg.priceMedium + cfg.priceLow) / 3)))) := by
      have := Real.exp_pos (-(cfg.demand_elasticity
        * (d2 / ((cfg.priceHigh + cfg.priceMedium + cfg.priceLow) / 3))))
      linarith
    have hdiv : 2 / (1 + Real.exp (-(cfg.demand_elasticity
          * (d1 / ((cfg.priceHigh + cfg.priceMedium + cfg.priceLow) / 3)))))
        ≤ 2 / (1 + Real.exp (-(cfg.demand_elasticity
          * (d2 / ((cfg.priceHigh + cfg.priceMedium + cfg.priceLow) / 3))))) := by
      apply div_le_div_of_nonneg_left (by norm_num) hpos2
      linarith
    exact min_le_min (max_le_max (by nlinarith) le_rfl) le_rfl
  · unfold calculate_market_share
    norm_num [Real.exp_zero]

/-- Witness for C10 at the default configuration with differences -5, 0, 5. -/
theorem calculate_market_share_monotone_witness :
    ((0 : ℝ) < 25 ∧ (0 : ℝ) < 20 ∧ (0 : ℝ) < 15 ∧ (0 : ℝ) < 0.3 ∧ (-5 : ℝ) ≤ 5)
    ∧ calculate_market_share cfgDefault (-5) ≤ calculate_market_share cfgDefault 5
    ∧ calculate_market_share cfgDefault 0 = 0.5 := by
  have h := calculate_market_share_monotone cfgDefault
    (by norm_num [cfgDefault]) (by norm_num [cfgDefault]) (by norm_num [cfgDefault])
    (by norm_num [cfgDefault])
  exact ⟨by norm_num, h.1 (-5) 5 (by norm_num), h.2⟩

/-
The analyzers of gametheory.py consume a finished payoff matrix and only
compare and combine its entries, so they are embedded generically over any
linear ordered field K.  A matrix is a function from ordered strategy pairs
to payoff pairs; in the source it is the dictionary self.payoff_matrix,
which is total over the nine pairs by C2.
-/

/-- Floating-point comparison tolerance of gametheory.py lines 109 and 146. -/
def tolerance (K : Type) [LinearOrderedField K] : K := 1 / 1000000

/-- One element of the list returned by find_nash_equilibria
(gametheory.py lines 132-137). -/
structure EquilibriumEntry (K : Type) where
  waymoStrategy : Strategy
  cruiseStrategy : Strategy
  waymoPayoff : K
  cruisePayoff : K
deriving DecidableEq

/-- Loop of gametheory.py lines 119-123: Waymo cannot profitably deviate,
that is no alternative Waymo strategy beats the current Waymo payoff by
more than the tolerance (the loop breaks as soon as
alt_w_payoff > w_payoff + tolerance, so it computes the conjunction of the
negations). -/
def waymo_best_response {K : Type} [LinearOrderedField K]
    (M : Strategy → Strategy → K × K) (w c : Strategy) : Bool :=
  strategies.all fun alt_w =>
    decide ((M alt_w c).1 ≤ (M w c).1 + tolerance K)

/-- Loop of gametheory.py lines 125-129: the same test for Cruise. -/
def cruise_best_response {K : Type} [LinearOrderedField K]
    (M : Strategy → Strategy → K × K) (w c : Strategy) : Bool :=
  strategies.all fun alt_c =>
    decide ((M w alt_c).2 ≤ (M w c).2 + tolerance K)

/-- find_nash_equilibria of gametheory.py lines 103-139: scan every profile
in enumeration order, keep those where both best-response tests pass, and
record the profile together with its payoffs. -/
def find_nash_equilibria {K : Type} [LinearOrderedField K]
    (M : Strategy → Strategy → K × K) : List (EquilibriumEntry K) :=
  strategies.flatMap fun w =>
    (strategies.filter fun c => waymo_best_response M w c && cruise_best_response M w c).map
      fun c => ⟨w, c, (M w c).1, (M w c).2⟩

/-- is_strictly_dominant of gametheory.py lines 148-163, abstracted over the
player: P s opp is the payoff of the player under scrutiny when it plays s
and the opponent plays opp (for Waymo P s opp = matrix[(s, opp)][0], for
Cruise P s opp = matrix[(opp, s)][1]).  The inner loop returns False as soon
as strategy_payoff <= other_payoff + tolerance, so the strategy is dominant
iff its payoff strictly exceeds every alternative payoff by more than the
tolerance against every opponent strategy. -/
def is_strictly_dominant {K : Type} [LinearOrderedField K]
    (P : Strategy → Strategy → K) (s : Strategy) : Bool :=
  strategies.all fun other =>
    if other = s then true
    else strategies.all fun opp =>
      decide ((P other opp) + tolerance K < P s opp)

/-- Selection loop of gametheory.py lines 165-172 for one player: starting
from None, overwrite with each strategy that passes the dominance test. -/
def dominant_pick {K : Type} [LinearOrderedField K]
    (P : Strategy → Strategy → K) : Option Strategy :=
  strategies.foldl (fun acc s => if is_strictly_dominant P s then some s else acc) none

/-- find_dominant_strategies of gametheory.py lines 141-174: the pair of
picks for Waymo (payoff index 0, own strategy first in the key) and Cruise
(payoff index 1, own strategy second in the key). -/
def find_dominant_strategies {K : Type} [LinearOrderedField K]
    (M : Strategy → Strategy → K × K) : Option Strategy × Option Strategy :=
  (dominant_pick (fun s opp => (M s opp).1),
   dominant_pick (fun s opp => (M opp s).2))

/-- Result dictionary of analyze_repeated_game (gametheory.py lines
212-220).  The critical discount factors live in WithTop K because the
source returns float(inf) when the denominator is too small. -/
structure RepeatedGameResult (K : Type) where
  waymoDelta : WithTop K
  cruiseDelta : WithTop K
  discountFactor : K
  canCooperateWaymo : Bool
  canCooperateCruise : Bool
  waymoLTV : K
  cruiseLTV : K
deriving DecidableEq

/-- safe_division of gametheory.py lines 187-188: divide when the absolute
denominator exceeds 1e-10, else plus infinity. -/
def safe_division {K : Type} [LinearOrderedField K] (n d : K) : WithTop K :=
  if (1 : K) / 10 ^ 10 < |d| then ((n / d : K) : WithTop K) else ⊤

/-- analyze_repeated_game of gametheory.py lines 176-220.  The long-term
values use the division of the field K, which yields 0 at a zero
denominator where the Python source, dividing IEEE doubles, would yield a
signed infinity; the theorems about the long-term values therefore carry
the hypothesis that 1 - discount_factor is nonzero.  The source performs no
validation of the discount factor. -/
def analyze_repeated_game {K : Type} [LinearOrderedField K]
    (M : Strategy → Strategy → K × K) (discount_factor : K) : RepeatedGameResult K :=
  let coop := M Strategy.High Strategy.High
  let defect_waymo := M Strategy.Low Strategy.High
  let defect_cruise := M Strategy.High Strategy.Low
  let punish := M Strategy.Low Strategy.Low
  let waymo_delta := safe_division (defect_waymo.1 - coop.1) (defect_waymo.1 - punish.1)
  let cruise_delta := safe_division (defect_cruise.2 - coop.2) (defect_cruise.2 - punish.2)
  let can_cooperate_waymo : Bool := decide (waymo_delta ≤ (discount_factor : WithTop K))
  let can_cooperate_cruise : Bool := decide (cruise_delta ≤ (discount_factor : WithTop K))
  { waymoDelta := waymo_delta
    cruiseDelta := cruise_delta
    discountFactor := discount_factor
    canCooperateWaymo := can_cooperate_waymo
    canCooperateCruise := can_cooperate_cruise
    waymoLTV :=
      if can_cooperate_waymo && can_cooperate_cruise then coop.1 / (1 - discount_factor)
      else punish.1 / (1 - discount_factor)
    cruiseLTV :=
      if can_cooperate_waymo && can_cooperate_cruise then coop.2 / (1 - discount_factor)
      else punish.2 / (1 - discount_factor) }

theorem waymo_best_response_iff {K : Type} [LinearOrderedField K]
    (M : Strategy → Strategy → K × K) (w c : Strategy) :
    waymo_best_response M w c = true
      ↔ ∀ alt, (M alt c).1 ≤ (M w c).1 + tolerance K := by
  constructor
  · intro h alt
    exact of_decide_eq_true (List.all_eq_true.mp h alt (strategies_complete alt))
  · intro h
    exact List.all_eq_true.mpr fun alt _ => decide_eq_true (h alt)

theorem cruise_best_response_iff {K : Type} [LinearOrderedField K]
    (M : Strategy → Strategy → K × K) (w c : Strategy) :
    cruise_best_response M w c = true
      ↔ ∀ alt, (M w alt).2 ≤ (M w c).2 + tolerance K := by
  constructor
  · intro h alt
    exact of_decide_eq_true (List.all_eq_true.mp h alt (strategies_complete alt))
  · intro h
    exact List.all_eq_true.mpr fun alt _ => decide_eq_true (h alt)

theorem mem_find_nash_equilibria {K : Type} [LinearOrderedField K]
    (M : Strategy → Strategy → K × K) (e : EquilibriumEntry K) :
    e ∈ find_nash_equilibria M ↔
      ∃ w1 c1, (waymo_best_response M w1 c1 && cruise_best_response M w1 c1) = true
        ∧ e = ⟨w1, c1, (M w1 c1).1, (M w1 c1).2⟩ := by
  unfold find_nash_equilibria
  simp only [List.mem_flatMap, List.mem_map, List.mem_filter]
  constructor
  · rintro ⟨w1, _, c1, ⟨_, hcond⟩, heq⟩
    exact ⟨w1, c1, hcond, heq.symm⟩
  · rintro ⟨w1, c1, hcond, heq⟩
    exact ⟨w1, strategies_complete w1, c1, ⟨strategies_complete c1, hcond⟩, heq.symm⟩

/-- C1: a profile appears in the output of find_nash_equilibria iff no
alternative Waymo strategy beats the Waymo payoff by more than the
tolerance with the Cruise strategy fixed, and no alternative Cruise
strategy beats the Cruise payoff by more than the tolerance with the Waymo
strategy fixed (so ties within tolerance do not disqualify a profile, the
alternative equal to the current strategy being harmless); and every
returned entry records exactly the payoffs of its profile in the matrix. -/
theorem find_nash_equilibria_characterization {K : Type} [LinearOrderedField K]
    (M : Strategy → Strategy → K × K) (w c : Strategy) :
    ((∃ e ∈ find_nash_equilibria M, e.waymoStrategy = w ∧ e.cruiseStrategy = c)
      ↔ ((∀ alt, (M alt c).1 ≤ (M w c).1 + tolerance K)
         ∧ (∀ alt, (M w alt).2 ≤ (M w c).2 + tolerance K)))
    ∧ (∀ e ∈ find_nash_equilibria M,
        e.waymoPayoff = (M e.waymoStrategy e.cruiseStrategy).1
        ∧ e.cruisePayoff = (M e.waymoStrategy e.cruiseStrategy).2) := by
  constructor
  · constructor
    · rintro ⟨e, he, hw, hc⟩
      obtain ⟨w1, c1, hcond, heq⟩ := (mem_find_nash_equilibria M e).mp he
      subst heq
      have hw1 : w1 = w := hw
      have hc1 : c1 = c := hc
      subst hw1; subst hc1
      rw [Bool.and_eq_true] at hcond
      exact ⟨(waymo_best_response_iff M _ _).mp hcond.1,
             (cruise_best_response_iff M _ _).mp hcond.2⟩
    · rintro ⟨h1, h2⟩
      refine ⟨⟨w, c, (M w c).1, (M w c).2⟩,
        (mem_find_nash_equilibria M _).mpr ⟨w, c, ?_, rfl⟩, rfl, rfl⟩
      rw [Bool.and_eq_true]
      exact ⟨(waymo_best_response_iff M w c).mpr h1,
             (cruise_best_response_iff M w c).mpr h2⟩
  · intro e he
    obtain ⟨w1, c1, _, heq⟩ := (mem_find_nash_equilibria M e).mp he
    subst heq
    exact ⟨rfl, rfl⟩

/-- A small rational test matrix in the shape of a prisoners dilemma with a
neutral Medium tier: mutual High gives (3, 3), defecting to Low against
High gives the defector 4 and the victim 0, mutual Low gives (1, 1), every
profile involving Medium gives (2, 2). -/
def pdMatrix : Strategy → Strategy → ℚ × ℚ
  | Strategy.High, Strategy.High => (3, 3)
  | Strategy.Low, Strategy.High => (4, 0)
  | Strategy.High, Strategy.Low => (0, 4)
  | Strategy.Low, Strategy.Low => (1, 1)
  | _, _ => (2, 2)

/-- Witness for C1: in pdMatrix the profile (Medium, Medium) is a Nash
equilibrium within tolerance (all deviations tie at payoff 2), and the
characterization places it in the output. -/
theorem find_nash_equilibria_characterization_witness :
    ∃ e ∈ find_nash_equilibria pdMatrix,
      e.waymoStrategy = Strategy.Medium ∧ e.cruiseStrategy = Strategy.Medium :=
  (find_nash_equilibria_characterization pdMatrix Strategy.Medium Strategy.Medium).1.mpr
    (by
      constructor <;> · intro alt; cases alt <;> norm_num [pdMatrix, tolerance])

theorem is_strictly_dominant_iff {K : Type} [LinearOrderedField K]
    (P : Strategy → Strategy → K) (s : Strategy) :
    is_strictly_dominant P s = true
      ↔ ∀ t, t ≠ s → ∀ opp, P t opp + tolerance K < P s opp := by
  constructor
  · intro h t ht opp
    have h1 := List.all_eq_true.mp h t (strategies_complete t)
    rw [if_neg ht] at h1
    exact of_decide_eq_true (List.all_eq_true.mp h1 opp (strategies_complete opp))
  · intro h
    apply List.all_eq_true.mpr
    intro t _
    by_cases ht : t = s
    · rw [if_pos ht]
    · rw [if_neg ht]
      exact List.all_eq_true.mpr fun opp _ => decide_eq_true (h t ht opp)

theorem dominant_exclusive {K : Type} [LinearOrderedField K]
    (P : Strategy → Strategy → K) {s u : Strategy}
    (hs : ∀ t, t ≠ s → ∀ opp, P t opp + tolerance K < P s opp)
    (hu : ∀ t, t ≠ u → ∀ opp, P t opp + tolerance K < P u opp) : s = u := by
  by_contra hne
  have h1 := hs u (fun h => hne h.symm) Strategy.High
  have h2 := hu s hne Strategy.High
  have ht : (0 : K) < tolerance K := by
    unfold tolerance
    norm_num
  linarith

theorem dominant_pick_eq {K : Type} [LinearOrderedField K]
    (P : Strategy → Strategy → K) :
    dominant_pick P =
      (if is_strictly_dominant P Strategy.Low then some Strategy.Low
       else if is_strictly_dominant P Strategy.Medium then some Strategy.Medium
       else if is_strictly_dominant P Strategy.High then some Strategy.High
       else none) := rfl

theorem dominant_pick_some_iff {K : Type} [LinearOrderedField K]
    (P : Strategy → Strategy → K) (s : Strategy) :
    dominant_pick P = some s
      ↔ ∀ t, t ≠ s → ∀ opp, P t opp + tolerance K < P s opp := by
  constructor
  · intro h
    rw [dominant_pick_eq] at h
    split_ifs at h with hL hM hH
    · cases h
      exact (is_strictly_dominant_iff P _).mp hL
    · cases h
      exact (is_strictly_dominant_iff P _).mp hM
    · cases h
      exact (is_strictly_dominant_iff P _).mp hH
  · intro hs
    have hb : is_strictly_dominant P s = true := (is_strictly_dominant_iff P s).mpr hs
    rw [dominant_pick_eq]
    split_ifs with hL hM hH
    · exact congrArg some (dominant_exclusive P ((is_strictly_dominant_iff P _).mp hL) hs)
    · exact congrArg some (dominant_exclusive P ((is_strictly_dominant_iff P _).mp hM) hs)
    · exact congrArg some (dominant_exclusive P ((is_strictly_dominant_iff P _).mp hH) hs)
    · exfalso
      cases s
      · exact hH hb
      · exact hM hb
      · exact hL hb

theorem dominant_pick_none_iff {K : Type} [LinearOrderedField K]
    (P : Strategy → Strategy → K) :
    dominant_pick P = none
      ↔ ∀ s, ¬∀ t, t ≠ s → ∀ opp, P t opp + tolerance K < P s opp := by
  rw [dominant_pick_eq]
  split_ifs with hL hM hH
  · exact iff_of_false (by simp)
      (by push_neg; exact ⟨Strategy.Low, (is_strictly_dominant_iff P _).mp hL⟩)
  · exact iff_of_false (by simp)
      (by push_neg; exact ⟨Strategy.Medium, (is_strictly_dominant_iff P _).mp hM⟩)
  · exact iff_of_false (by simp)
      (by push_neg; exact ⟨Strategy.High, (is_strictly_dominant_iff P _).mp hH⟩)
  · refine iff_of_true rfl fun s hcond => ?_
    have hb := (is_strictly_dominant_iff P s).mpr hcond
    cases s
    · exact hH hb
    · exact hM hb
    · exact hL hb

/-- C5: per player, find_dominant_strategies returns a strategy s iff s
strictly beats every alternative by more than the tolerance against every
opponent strategy; at most one strategy per player can satisfy this
condition; and None is returned exactly when no strategy qualifies. -/
theorem find_dominant_strategies_characterization {K : Type} [LinearOrderedField K]
    (M : Strategy → Strategy → K × K) :
    (∀ s, (find_dominant_strategies M).1 = some s
        ↔ ∀ t, t ≠ s → ∀ opp, (M t opp).1 + tolerance K < (M s opp).1)
    ∧ ((find_dominant_strategies M).1 = none
        ↔ ∀ s, ¬∀ t, t ≠ s → ∀ opp, (M t opp).1 + tolerance K < (M s opp).1)
    ∧ (∀ s u, (∀ t, t ≠ s → ∀ opp, (M t opp).1 + tolerance K < (M s opp).1)
        → (∀ t, t ≠ u → ∀ opp, (M t opp).1 + tolerance K < (M u opp).1) → s = u)
    ∧ (∀ s, (find_dominant_strategies M).2 = some s
        ↔ ∀ t, t ≠ s → ∀ opp, (M opp t).2 + tolerance K < (M opp s).2)
    ∧ ((find_dominant_strategies M).2 = none
        ↔ ∀ s, ¬∀ t, t ≠ s → ∀ opp, (M opp t).2 + tolerance K < (M opp s).2)
    ∧ (∀ s u, (∀ t, t ≠ s → ∀ opp, (M opp t).2 + tolerance K < (M opp s).2)
        → (∀ t, t ≠ u → ∀ opp, (M opp t).2 + tolerance K < (M opp u).2) → s = u) :=
  ⟨fun s => dominant_pick_some_iff (fun a b => (M a b).1) s,
   dominant_pick_none_iff (fun a b => (M a b).1),
   fun _ _ hs hu => dominant_exclusive (fun a b => (M a b).1) hs hu,
   fun s => dominant_pick_some_iff (fun a b => (M b a).2) s,
   dominant_pick_none_iff (fun a b => (M b a).2),
   fun _ _ hs hu => dominant_exclusive (fun a b => (M b a).2) hs hu⟩

/-- Payoff ladder that makes Low strictly dominant for both players. -/
def domPay : Strategy → ℚ
  | Strategy.High => 1
  | Strategy.Medium => 2
  | Strategy.Low => 3

/-- Matrix whose payoff for each player depends only on that players own
tier, rewarding lower tiers: Low is strictly dominant for both players. -/
def domMatrix : Strategy → Strategy → ℚ × ℚ := fun w c => (domPay w, domPay c)

/-- Witness for C5: some Low for Waymo in domMatrix, and None for Waymo in
pdMatrix where no strategy dominates. -/
theorem find_dominant_strategies_characterization_witness :
    (find_dominant_strategies domMatrix).1 = some Strategy.Low
    ∧ (find_dominant_strategies pdMatrix).1 = none :=
  ⟨((find_dominant_strategies_characterization domMatrix).1 Strategy.Low).mpr (by
      intro t ht opp
      cases t <;> simp_all [domMatrix, domPay, tolerance] <;> norm_num),
   (find_dominant_strategies_characterization pdMatrix).2.1.mpr (by
      intro s hcond
      cases s
      · have := hcond Strategy.Low (by decide) Strategy.High
        norm_num [pdMatrix, tolerance] at this
      · have := hcond Strategy.High (by decide) Strategy.High
        norm_num [pdMatrix, tolerance] at this
      · have := hcond Strategy.Medium (by decide) Strategy.Medium
        norm_num [pdMatrix, tolerance] at this)⟩

/-- C3: each critical discount factor is the ratio of temptation minus
cooperation to temptation minus punishment for that player, where the
temptation payoff of Waymo is taken at (Low, High) and of Cruise at
(High, Low), cooperation at (High, High) and punishment at (Low, Low); when
the absolute denominator is at most 1e-10 the factor is plus infinity; the
sustainability verdict is true exactly when the discount factor is at least
the critical factor, so equality yields true. -/
theorem analyze_repeated_game_critical_discount {K : Type} [LinearOrderedField K]
    (M : Strategy → Strategy → K × K) (df : K) :
    ((1 : K) / 10 ^ 10
        < |(M Strategy.Low Strategy.High).1 - (M Strategy.Low Strategy.Low).1| →
      (analyze_repeated_game M df).waymoDelta =
        ((((M Strategy.Low Strategy.High).1 - (M Strategy.High Strategy.High).1)
          / ((M Strategy.Low Strategy.High).1 - (M Strategy.Low Strategy.Low).1) : K)
          : WithTop K))
    ∧ (|(M Strategy.Low Strategy.High).1 - (M Strategy.Low Strategy.Low).1|
        ≤ (1 : K) / 10 ^ 10 → (analyze_repeated_game M df).waymoDelta = ⊤)
    ∧ ((1 : K) / 10 ^ 10
        < |(M Strategy.High Strategy.Low).2 - (M Strategy.Low Strategy.Low).2| →
      (analyze_repeated_game M df).cruiseDelta =
        ((((M Strategy.High Strategy.Low).2 - (M Strategy.High Strategy.High).2)
          / ((M Strategy.High Strategy.Low).2 - (M Strategy.Low Strategy.Low).2) : K)
          : WithTop K))
    ∧ (|(M Strategy.High Strategy.Low).2 - (M Strategy.Low Strategy.Low).2|
        ≤ (1 : K) / 10 ^ 10 → (analyze_repeated_game M df).cruiseDelta = ⊤)
    ∧ ((analyze_repeated_game M df).canCooperateWaymo = true
        ↔ (analyze_repeated_game M df).waymoDelta ≤ (df : WithTop K))
    ∧ ((analyze_repeated_game M df).canCooperateCruise = true
        ↔ (analyze_repeated_game M df).cruiseDelta ≤ (df : WithTop K))
    ∧ ((analyze_repeated_game M df).waymoDelta = (df : WithTop K)
        → (analyze_repeated_game M df).canCooperateWaymo = true)
    ∧ ((analyze_repeated_game M df).cruiseDelta = (df : WithTop K)
        → (analyze_repeated_game M df).canCooperateCruise = true) := by
  refine ⟨?_, ?_, ?_, ?_, ?_, ?_, ?_, ?_⟩
  · intro h
    simp only [analyze_repeated_game, safe_division]
    rw [if_pos h]
  · intro h
    simp only [analyze_repeated_game, safe_division]
    rw [if_neg (not_lt.mpr h)]
  · intro h
    simp only [analyze_repeated_game, safe_division]
    rw [if_pos h]
  · intro h
    simp only [analyze_repeated_game, safe_division]
    rw [if_neg (not_lt.mpr h)]
  · simp only [analyze_repeated_game]
    exact decide_eq_true_iff
  · simp only [analyze_repeated_game]
    exact decide_eq_true_iff
  · simp only [analyze_repeated_game]
    intro heq
    rw [heq]
    exact decide_eq_true le_rfl
  · simp only [analyze_repeated_game]
    intro heq
    rw [heq]
    exact decide_eq_true le_rfl

/-- Witness for C3 on the rational test matrix with discount factor 9/10:
the Waymo denominator 4 - 1 clears the guard and the critical factor is
(4 - 3) / (4 - 1). -/
theorem analyze_repeated_game_critical_discount_witness :
    ((1 : ℚ) / 10 ^ 10
        < |(pdMatrix Strategy.Low Strategy.High).1 - (pdMatrix Strategy.Low Strategy.Low).1|)
    ∧ (analyze_repeated_game pdMatrix (9 / 10 : ℚ)).waymoDelta =
        ((((pdMatrix Strategy.Low Strategy.High).1 - (pdMatrix Strategy.High Strategy.High).1)
          / ((pdMatrix Strategy.Low Strategy.High).1 - (pdMatrix Strategy.Low Strategy.Low).1) : ℚ)
          : WithTop ℚ) := by
  have h : (1 : ℚ) / 10 ^ 10
      < |(pdMatrix Strategy.Low Strategy.High).1 - (pdMatrix Strategy.Low Strategy.Low).1| := by
    norm_num [pdMatrix]
  exact ⟨h, (analyze_repeated_game_critical_discount pdMatrix (9 / 10)).1 h⟩

/-- C7: when both sustainability verdicts hold, each long-term value is the
cooperation payoff at (High, High) divided by one minus the discount
factor; otherwise each is the punishment payoff at (Low, Low) divided by
one minus the discount factor.  The hypothesis keeps the discount factor
away from 1, where the source divides by zero. -/
theorem analyze_repeated_game_long_term_value {K : Type} [LinearOrderedField K]
    (M : Strategy → Strategy → K × K) (df : K) (h : 1 - df ≠ 0) :
    ((analyze_repeated_game M df).canCooperateWaymo = true
       ∧ (analyze_repeated_game M df).canCooperateCruise = true →
       (analyze_repeated_game M df).waymoLTV
          = (M Strategy.High Strategy.High).1 / (1 - df)
       ∧ (analyze_repeated_game M df).cruiseLTV
          = (M Strategy.High Strategy.High).2 / (1 - df))
    ∧ (¬((analyze_repeated_game M df).canCooperateWaymo = true
         ∧ (analyze_repeated_game M df).canCooperateCruise = true) →
       (analyze_repeated_game M df).waymoLTV
          = (M Strategy.Low Strategy.Low).1 / (1 - df)
       ∧ (analyze_repeated_game M df).cruiseLTV
          = (M Strategy.Low Strategy.Low).2 / (1 - df)) := by
  constructor
  · intro hcc
    simp only [analyze_repeated_game] at hcc ⊢
    rw [hcc.1, hcc.2]
    exact ⟨rfl, rfl⟩
  · intro hcc
    simp only [analyze_repeated_game] at hcc ⊢
    constructor
    · rw [if_neg fun hab => hcc (by simpa using hab)]
    · rw [if_neg fun hab => hcc (by simpa using hab)]

/-- Witness for C7 on the rational test matrix with discount factor 1/2:
both players can sustain cooperation (critical factor 1/3) and the Waymo
long-term value equals the cooperation payoff over 1 - 1/2. -/
theorem analyze_repeated_game_long_term_value_witness :
    (1 - (1 / 2 : ℚ) ≠ 0)
    ∧ (analyze_repeated_game pdMatrix (1 / 2 : ℚ)).waymoLTV
        = (pdMatrix Strategy.High Strategy.High).1 / (1 - (1 / 2 : ℚ)) := by
  have hW : (analyze_repeated_game pdMatrix (1 / 2 : ℚ)).canCooperateWaymo = true := by
    simp only [analyze_repeated_game, safe_division, pdMatrix]
    rw [if_pos (by norm_num)]
    exact decide_eq_true (WithTop.coe_le_coe.mpr (by norm_num))
  have hC : (analyze_repeated_game pdMatrix (1 / 2 : ℚ)).canCooperateCruise = true := by
    simp only [analyze_repeated_game, safe_division, pdMatrix]
    rw [if_pos (by norm_num)]
    exact decide_eq_true (WithTop.coe_le_coe.mpr (by norm_num))
  exact ⟨by norm_num,
    ((analyze_repeated_game_long_term_value pdMatrix (1 / 2) (by norm_num)).1 ⟨hW, hC⟩).1⟩

/-- C8 counterexample: analyze_repeated_game performs no validation of the
discount factor.  At discount factor -1/2, which lies outside [0, 1), the
source does not fail and does not raise anything; it computes a complete
result (critical factors 1/3, both verdicts false since -1/2 is below 1/3,
punishment long-term values 1 / (1 - (-1/2)) = 2/3), contradicting the
claim that such inputs are rejected rather than computed. -/
theorem analyze_repeated_game_accepts_invalid_counterexample :
    ((-1 / 2 : ℚ) < 0)
    ∧ analyze_repeated_game pdMatrix (-1 / 2 : ℚ) =
        { waymoDelta := ((1 / 3 : ℚ) : WithTop ℚ)
          cruiseDelta := ((1 / 3 : ℚ) : WithTop ℚ)
          discountFactor := -1 / 2
          canCooperateWaymo := false
          canCooperateCruise := false
          waymoLTV := 2 / 3
          cruiseLTV := 2 / 3 } := by
  refine ⟨by norm_num, ?_⟩
  have hval : ((4 : ℚ) - 3) / (4 - 1) = 1 / 3 := by norm_num
  have hnle : ¬(((1 / 3 : ℚ) : WithTop ℚ) ≤ ((-1 / 2 : ℚ) : WithTop ℚ)) := by
    rw [WithTop.coe_le_coe]
    norm_num
  simp only [analyze_repeated_game, safe_division, pdMatrix]
  rw [if_pos (by norm_num : (1 : ℚ) / 10 ^ 10 < |(4 : ℚ) - 1|), hval,
    decide_eq_false hnle]
  simp only [Bool.false_and, Bool.and_self, if_false]
  norm_num

/-- C8 amended: analyze_repeated_game does not validate its discount
factor.  For every discount factor, including every value below 0 or at
least 1, it computes and returns a result whose discount-factor field
echoes the input and whose sustainability verdicts follow the usual
comparison with the critical factors; no input is rejected. -/
theorem analyze_repeated_game_no_validation {K : Type} [LinearOrderedField K]
    (M : Strategy → Strategy → K × K) (df : K) (h : df < 0 ∨ 1 ≤ df) :
    (analyze_repeated_game M df).discountFactor = df
    ∧ ((analyze_repeated_game M df).canCooperateWaymo = true
        ↔ (analyze_repeated_game M df).waymoDelta ≤ (df : WithTop K))
    ∧ ((analyze_repeated_game M df).canCooperateCruise = true
        ↔ (analyze_repeated_game M df).cruiseDelta ≤ (df : WithTop K)) := by
  refine ⟨rfl, ?_, ?_⟩
  · simp only [analyze_repeated_game]
    exact decide_eq_true_iff
  · simp only [analyze_repeated_game]
    exact decide_eq_true_iff

/-- Witness for the amended C8 at the invalid discount factor -1/2. -/
theorem analyze_repeated_game_no_validation_witness :
    ((-1 / 2 : ℚ) < 0 ∨ (1 : ℚ) ≤ -1 / 2)
    ∧ (analyze_repeated_game pdMatrix (-1 / 2 : ℚ)).discountFactor = -1 / 2 := by
  have h : (-1 / 2 : ℚ) < 0 ∨ (1 : ℚ) ≤ -1 / 2 := Or.inl (by norm_num)
  exact ⟨h, (analyze_repeated_game_no_validation pdMatrix (-1 / 2) h).1⟩

/-
Embedding of decisiontree.py, the linear penalty-bearing variant.  All its
arithmetic is rational, so the model lives in ℚ.
-/

/-- Scenario option of RideShareGameAnalyzer (decisiontree.py line 6). -/
inductive Scenario where
  | ShortTerm
  | LongTerm
deriving DecidableEq

/-- Payoff multiplier of decisiontree.py lines 66-72: Short-term payoffs
are the revenues themselves, Long-term payoffs accumulate over 12 months. -/
def Scenario.mult : Scenario → ℚ
  | Scenario.ShortTerm => 1
  | Scenario.LongTerm => 12

/-- Constructor parameters of RideShareGameAnalyzer (decisiontree.py
line 6): market size, price sensitivity and the scenario. -/
structure DTConfig where
  market_size : ℚ
  price_sensitivity : ℚ
  scenario : Scenario
deriving DecidableEq

/-- The fixed price tiers of decisiontree.py lines 19-23. -/
def dtPrice : Strategy → ℚ
  | Strategy.High => 25
  | Strategy.Medium => 20
  | Strategy.Low => 15

/-- Linear market share of decisiontree.py lines 56-58:
0.5 + priceDiff * sensitivity, clamped by max(0.1, min(0.9, share)). -/
def dt_waymo_share (cfg : DTConfig) (w c : Strategy) : ℚ :=
  max 0.1 (min 0.9 (0.5 + (dtPrice c - dtPrice w) * cfg.price_sensitivity))

/-- Waymo revenue of decisiontree.py line 62. -/
def dt_waymo_revenue (cfg : DTConfig) (w c : Strategy) : ℚ :=
  dt_waymo_share cfg w c * cfg.market_size * dtPrice w

/-- Cruise revenue of decisiontree.py line 63, with the complementary
share. -/
def dt_cruise_revenue (cfg : DTConfig) (w c : Strategy) : ℚ :=
  (1 - dt_waymo_share cfg w c) * cfg.market_size * dtPrice c

/-- Raw payoffs of decisiontree.py lines 65-78, the values stored under the
node key "revenue": the scenario multiple of each revenue, then minus the
50000 loss penalty for a player that plays Low while its unscaled revenue
lies below 0.8 of marketSize times the top tier price. -/
def dt_raw_payoffs (cfg : DTConfig) (w c : Strategy) : ℚ × ℚ :=
  let waymo_revenue := dt_waymo_revenue cfg w c
  let cruise_revenue := dt_cruise_revenue cfg w c
  let waymo_payoff := waymo_revenue * cfg.scenario.mult
  let cruise_payoff := cruise_revenue * cfg.scenario.mult
  let waymo_payoff :=
    if w = Strategy.Low
        ∧ waymo_revenue < 0.8 * (cfg.market_size * dtPrice Strategy.High)
    then waymo_payoff - 50000 else waymo_payoff
  let cruise_payoff :=
    if c = Strategy.Low
        ∧ cruise_revenue < 0.8 * (cfg.market_size * dtPrice Strategy.High)
    then cruise_payoff - 50000 else cruise_payoff
  (waymo_payoff, cruise_payoff)

/-- The int() conversion of Python truncates toward zero. -/
def truncInt (x : ℚ) : ℤ := if 0 ≤ x then ⌊x⌋ else ⌈x⌉

/-- max_possible_revenue of decisiontree.py line 82. -/
def dt_max_possible_revenue (cfg : DTConfig) : ℚ :=
  cfg.market_size
    * max (dtPrice Strategy.High) (max (dtPrice Strategy.Medium) (dtPrice Strategy.Low))
    * cfg.scenario.mult

/-- Normalization of one payoff, decisiontree.py lines 83-88: scale to the
0..100 range, truncate to an integer, clamp below at 0. -/
def dt_normalize (cfg : DTConfig) (p : ℚ) : ℤ :=
  max 0 (truncInt (p / dt_max_possible_revenue cfg * 100))

/-- The pair stored under the node key "payoff", used by the equilibrium
scan of decisiontree.py. -/
def dt_norm_payoffs (cfg : DTConfig) (w c : Strategy) : ℤ × ℤ :=
  (dt_normalize cfg (dt_raw_payoffs cfg w c).1,
   dt_normalize cfg (dt_raw_payoffs cfg w c).2)

/-- Waymo best-response test of decisiontree.py lines 164-170, on the
normalized payoffs: no different alternative strictly exceeds the current
normalized Waymo payoff. -/
def dt_waymo_best (cfg : DTConfig) (w c : Strategy) : Bool :=
  strategies.all fun alt =>
    if alt = w then true
    else decide ((dt_norm_payoffs cfg alt c).1 ≤ (dt_norm_payoffs cfg w c).1)

/-- Cruise best-response test of decisiontree.py lines 172-178. -/
def dt_cruise_best (cfg : DTConfig) (w c : Strategy) : Bool :=
  strategies.all fun alt =>
    if alt = c then true
    else decide ((dt_norm_payoffs cfg w alt).2 ≤ (dt_norm_payoffs cfg w c).2)

/-- find_nash_equilibrium of decisiontree.py lines 136-183: scan the nine
profiles in enumeration order and keep those passing both best-response
tests on the normalized payoffs; a kept node key C_w_c is modelled as the
profile pair. -/
def dt_find_nash_equilibrium (cfg : DTConfig) : List (Strategy × Strategy) :=
  strategies.flatMap fun w =>
    (strategies.filter fun c => dt_waymo_best cfg w c && dt_cruise_best cfg w c).map
      fun c => (w, c)

/-- The raw-payoff variant of the Waymo best-response test, as described by
the specification: the same comparison against the raw payoffs stored under
"revenue" instead of the normalized ones. -/
def dt_waymo_best_raw (cfg : DTConfig) (w c : Strategy) : Bool :=
  strategies.all fun alt =>
    if alt = w then true
    else decide ((dt_raw_payoffs cfg alt c).1 ≤ (dt_raw_payoffs cfg w c).1)

/-- The raw-payoff variant of the Cruise best-response test. -/
def dt_cruise_best_raw (cfg : DTConfig) (w c : Strategy) : Bool :=
  strategies.all fun alt =>
    if alt = c then true
    else decide ((dt_raw_payoffs cfg w alt).2 ≤ (dt_raw_payoffs cfg w c).2)

/-- The equilibrium scan on the raw payoffs, the check the specification
says the code performs. -/
def dt_find_nash_equilibrium_raw (cfg : DTConfig) : List (Strategy × Strategy) :=
  strategies.flatMap fun w =>
    (strategies.filter fun c => dt_waymo_best_raw cfg w c && dt_cruise_best_raw cfg w c).map
      fun c => (w, c)

/-- Default parameters of decisiontree.py: market size 1000000, price
sensitivity 0.3, Short-term scenario. -/
def dtCfgDefault : DTConfig :=
  { market_size := 1000000, price_sensitivity := 0.3, scenario := Scenario.ShortTerm }

/-- C4 amended: the fixed 50000 loss penalty exists only in the
decision-tree (linear) variant, not in the canonical sigmoid computation
(see the counterexample).  There it applies to each player symmetrically:
a player that plays Low while its revenue is below
0.8 * marketSize * topPrice has 50000 subtracted after the scenario
multiplier (that variant has no rate-of-return scaling), and a player not
meeting the condition keeps the scenario multiple of its revenue. -/
theorem dt_loss_penalty_behavior (cfg : DTConfig) (w c : Strategy) :
    ((w = Strategy.Low
        ∧ dt_waymo_revenue cfg w c < 0.8 * (cfg.market_size * dtPrice Strategy.High)) →
      (dt_raw_payoffs cfg w c).1
        = dt_waymo_revenue cfg w c * cfg.scenario.mult - 50000)
    ∧ (¬(w = Strategy.Low
        ∧ dt_waymo_revenue cfg w c < 0.8 * (cfg.market_size * dtPrice Strategy.High)) →
      (dt_raw_payoffs cfg w c).1 = dt_waymo_revenue cfg w c * cfg.scenario.mult)
    ∧ ((c = Strategy.Low
        ∧ dt_cruise_revenue cfg w c < 0.8 * (cfg.market_size * dtPrice Strategy.High)) →
      (dt_raw_payoffs cfg w c).2
        = dt_cruise_revenue cfg w c * cfg.scenario.mult - 50000)
    ∧ (¬(c = Strategy.Low
        ∧ dt_cruise_revenue cfg w c < 0.8 * (cfg.market_size * dtPrice Strategy.High)) →
      (dt_raw_payoffs cfg w c).2 = dt_cruise_revenue cfg w c * cfg.scenario.mult) := by
  refine ⟨fun h => ?_, fun h => ?_, fun h => ?_, fun h => ?_⟩
  · simp only [dt_raw_payoffs]
    rw [if_pos h]
  · simp only [dt_raw_payoffs]
    rw [if_neg h]
  · simp only [dt_raw_payoffs]
    rw [if_pos h]
  · simp only [dt_raw_payoffs]
    rw [if_neg h]

/-- Witness for the amended C4 at the default decision-tree parameters and
the profile (Low, Low): the Waymo revenue 7500000 is below 20000000, so the
stored Waymo payoff is the revenue minus 50000. -/
theorem dt_loss_penalty_behavior_witness :
    (Strategy.Low = Strategy.Low
      ∧ dt_waymo_revenue dtCfgDefault Strategy.Low Strategy.Low
          < 0.8 * (dtCfgDefault.market_size * dtPrice Strategy.High))
    ∧ (dt_raw_payoffs dtCfgDefault Strategy.Low Strategy.Low).1
        = dt_waymo_revenue dtCfgDefault Strategy.Low Strategy.Low
            * (dtCfgDefault.scenario).mult - 50000 := by
  have h : Strategy.Low = Strategy.Low
      ∧ dt_waymo_revenue dtCfgDefault Strategy.Low Strategy.Low
          < 0.8 * (dtCfgDefault.market_size * dtPrice Strategy.High) := by
    refine ⟨rfl, ?_⟩
    norm_num [dt_waymo_revenue, dt_waymo_share, dtPrice, dtCfgDefault, min_def, max_def]
  exact ⟨h, (dt_loss_penalty_behavior dtCfgDefault Strategy.Low Strategy.Low).1 h⟩

theorem all_skip_iff {α : Type} [LinearOrder α] (f : Strategy → α) (x : α) (s : Strategy) :
    (strategies.all fun alt => if alt = s then true else decide (f alt ≤ x)) = true
      ↔ ∀ alt, alt ≠ s → f alt ≤ x := by
  constructor
  · intro h alt hne
    have h1 := List.all_eq_true.mp h alt (strategies_complete alt)
    rw [if_neg hne] at h1
    exact of_decide_eq_true h1
  · intro h
    apply List.all_eq_true.mpr
    intro alt _
    by_cases hne : alt = s
    · rw [if_pos hne]
    · rw [if_neg hne]
      exact decide_eq_true (h alt hne)

theorem dt_waymo_best_iff (cfg : DTConfig) (w c : Strategy) :
    dt_waymo_best cfg w c = true
      ↔ ∀ alt, alt ≠ w → (dt_norm_payoffs cfg alt c).1 ≤ (dt_norm_payoffs cfg w c).1 :=
  all_skip_iff _ _ _

theorem dt_cruise_best_iff (cfg : DTConfig) (w c : Strategy) :
    dt_cruise_best cfg w c = true
      ↔ ∀ alt, alt ≠ c → (dt_norm_payoffs cfg w alt).2 ≤ (dt_norm_payoffs cfg w c).2 :=
  all_skip_iff _ _ _

theorem dt_waymo_best_raw_iff (cfg : DTConfig) (w c : Strategy) :
    dt_waymo_best_raw cfg w c = true
      ↔ ∀ alt, alt ≠ w → (dt_raw_payoffs cfg alt c).1 ≤ (dt_raw_payoffs cfg w c).1 :=
  all_skip_iff _ _ _

theorem dt_cruise_best_raw_iff (cfg : DTConfig) (w c : Strategy) :
    dt_cruise_best_raw cfg w c = true
      ↔ ∀ alt, alt ≠ c → (dt_raw_payoffs cfg w alt).2 ≤ (dt_raw_payoffs cfg w c).2 :=
  all_skip_iff _ _ _

theorem mem_dt_find_nash_equilibrium (cfg : DTConfig) (w c : Strategy) :
    (w, c) ∈ dt_find_nash_equilibrium cfg
      ↔ dt_waymo_best cfg w c = true ∧ dt_cruise_best cfg w c = true := by
  unfold dt_find_nash_equilibrium
  simp only [List.mem_flatMap, List.mem_map, List.mem_filter]
  constructor
  · rintro ⟨w1, _, c1, ⟨_, hcond⟩, heq⟩
    rw [Prod.mk.injEq] at heq
    obtain ⟨hw, hc⟩ := heq
    subst hw; subst hc
    simpa using hcond
  · rintro ⟨h1, h2⟩
    refine ⟨w, strategies_complete w, c, ⟨strategies_complete c, ?_⟩, rfl⟩
    rw [h1, h2]
    rfl

theorem mem_dt_find_nash_equilibrium_raw (cfg : DTConfig) (w c : Strategy) :
    (w, c) ∈ dt_find_nash_equilibrium_raw cfg
      ↔ dt_waymo_best_raw cfg w c = true ∧ dt_cruise_best_raw cfg w c = true := by
  unfold dt_find_nash_equilibrium_raw
  simp only [List.mem_flatMap, List.mem_map, List.mem_filter]
  constructor
  · rintro ⟨w1, _, c1, ⟨_, hcond⟩, heq⟩
    rw [Prod.mk.injEq] at heq
    obtain ⟨hw, hc⟩ := heq
    subst hw; subst hc
    simpa using hcond
  · rintro ⟨h1, h2⟩
    refine ⟨w, strategies_complete w, c, ⟨strategies_complete c, ?_⟩, rfl⟩
    rw [h1, h2]
    rfl

theorem truncInt_mono {a b : ℚ} (h : a ≤ b) : truncInt a ≤ truncInt b := by
  unfold truncInt
  split_ifs with h1 h2 h2
  · exact Int.floor_le_floor h
  · exact absurd (h1.trans h) h2
  · calc (⌈a⌉ : ℤ) ≤ 0 := Int.ceil_le.mpr (by exact_mod_cast (not_le.mp h1).le)
      _ ≤ ⌊b⌋ := Int.floor_nonneg.mpr h2
  · exact Int.ceil_le_ceil h

theorem dt_normalize_mono (cfg : DTConfig) (hms : 0 < cfg.market_size)
    {p q : ℚ} (h : p ≤ q) : dt_normalize cfg p ≤ dt_normalize cfg q := by
  unfold dt_normalize
  apply max_le_max le_rfl
  apply truncInt_mono
  have hmr : 0 < dt_max_possible_revenue cfg := by
    unfold dt_max_possible_revenue
    apply mul_pos (mul_pos hms ((by norm_num [dtPrice] : (0 : ℚ) < 25).trans_le
      (le_max_left _ _)))
    cases hsc : cfg.scenario <;> norm_num [Scenario.mult]
  exact mul_le_mul_of_nonneg_right (div_le_div_of_nonneg_right h hmr.le) (by norm_num)

/-- C9 amended: the Nash determination of decisiontree.py operates on the
normalized (truncated and clamped) payoffs, not on the raw ones.  Since the
normalization is monotone for a positive market size, every raw-payoff
equilibrium is also an equilibrium of the normalized payoffs, but the
converse fails (see the counterexample), so the normalization does leak
into the equilibrium determination. -/
theorem dt_nash_raw_subset_normalized (cfg : DTConfig) (hms : 0 < cfg.market_size) :
    ∀ p : Strategy × Strategy,
      p ∈ dt_find_nash_equilibrium_raw cfg → p ∈ dt_find_nash_equilibrium cfg := by
  rintro ⟨w, c⟩ hp
  rw [mem_dt_find_nash_equilibrium_raw] at hp
  rw [mem_dt_find_nash_equilibrium]
  obtain ⟨h1, h2⟩ := hp
  rw [dt_waymo_best_raw_iff] at h1
  rw [dt_cruise_best_raw_iff] at h2
  constructor
  · rw [dt_waymo_best_iff]
    intro alt hne
    simp only [dt_norm_payoffs]
    exact dt_normalize_mono cfg hms (h1 alt hne)
  · rw [dt_cruise_best_iff]
    intro alt hne
    simp only [dt_norm_payoffs]
    exact dt_normalize_mono cfg hms (h2 alt hne)


/-- A configuration on which the normalized and the raw equilibrium checks
disagree: price sensitivity 0.026, market size 1000000, Short-term. -/
def dtCfgNarrow : DTConfig :=
  { market_size := 1000000, price_sensitivity := 13 / 500, scenario := Scenario.ShortTerm }

theorem strategy_medium_ne_low : (Strategy.Medium = Strategy.Low) = False := by simp

theorem strategy_high_ne_low : (Strategy.High = Strategy.Low) = False := by simp

theorem strategy_low_eq_low : (Strategy.Low = Strategy.Low) = True := by simp

/-- C9 counterexample: at sensitivity 0.026 the profile (High, High) is
reported as a Nash equilibrium by find_nash_equilibrium of decisiontree.py,
which compares the normalized payoffs (both the current Waymo payoff
12500000 and the deviation payoff 12600000 normalize to the score 50), yet
on the raw payoffs Waymo strictly gains by deviating to Medium, so the
profile is not an equilibrium of the raw payoffs: the normalization leaks
into the equilibrium determination and changes the answer. -/
theorem dt_nash_normalized_differs_counterexample :
    (Strategy.High, Strategy.High) ∈ dt_find_nash_equilibrium dtCfgNarrow
    ∧ (Strategy.High, Strategy.High) ∉ dt_find_nash_equilibrium_raw dtCfgNarrow := by
  constructor
  · rw [mem_dt_find_nash_equilibrium]
    constructor
    · rw [dt_waymo_best_iff]
      intro alt hne
      cases alt
      · exact absurd rfl hne
      · norm_num [strategy_medium_ne_low, strategy_high_ne_low, dt_norm_payoffs,
          dt_normalize, dt_raw_payoffs, dt_waymo_revenue, dt_cruise_revenue,
          dt_waymo_share, dt_max_possible_revenue, dtPrice, dtCfgNarrow,
          Scenario.mult, truncInt, min_def, max_def]
      · norm_num [strategy_medium_ne_low, strategy_high_ne_low, strategy_low_eq_low,
          dt_norm_payoffs, dt_normalize, dt_raw_payoffs, dt_waymo_revenue,
          dt_cruise_revenue, dt_waymo_share, dt_max_possible_revenue, dtPrice,
          dtCfgNarrow, Scenario.mult, truncInt, min_def, max_def]
    · rw [dt_cruise_best_iff]
      intro alt hne
      cases alt
      · exact absurd rfl hne
      · norm_num [strategy_medium_ne_low, strategy_high_ne_low, dt_norm_payoffs,
          dt_normalize, dt_raw_payoffs, dt_waymo_revenue, dt_cruise_revenue,
          dt_waymo_share, dt_max_possible_revenue, dtPrice, dtCfgNarrow,
          Scenario.mult, truncInt, min_def, max_def]
      · norm_num [strategy_medium_ne_low, strategy_high_ne_low, strategy_low_eq_low,
          dt_norm_payoffs, dt_normalize, dt_raw_payoffs, dt_waymo_revenue,
          dt_cruise_revenue, dt_waymo_share, dt_max_possible_revenue, dtPrice,
          dtCfgNarrow, Scenario.mult, truncInt, min_def, max_def]
  · rw [mem_dt_find_nash_equilibrium_raw]
    rintro ⟨h1, _⟩
    rw [dt_waymo_best_raw_iff] at h1
    have hdev := h1 Strategy.Medium (by decide)
    norm_num [strategy_medium_ne_low, strategy_high_ne_low, dt_raw_payoffs,
      dt_waymo_revenue, dt_waymo_share, dtPrice, dtCfgNarrow, Scenario.mult,
      min_def, max_def] at hdev

/-- Witness for the amended C9 at the default decision-tree parameters:
(Low, Low) is an equilibrium of the raw payoffs there, hence also of the
normalized ones. -/
theorem dt_nash_raw_subset_normalized_witness :
    (0 : ℚ) < dtCfgDefault.market_size
    ∧ (Strategy.Low, Strategy.Low) ∈ dt_find_nash_equilibrium dtCfgDefault := by
  have hms : (0 : ℚ) < dtCfgDefault.market_size := by norm_num [dtCfgDefault]
  have hraw : (Strategy.Low, Strategy.Low) ∈ dt_find_nash_equilibrium_raw dtCfgDefault := by
    rw [mem_dt_find_nash_equilibrium_raw]
    constructor
    · rw [dt_waymo_best_raw_iff]
      intro alt hne
      cases alt
      · norm_num [strategy_medium_ne_low, strategy_high_ne_low, strategy_low_eq_low,
          dt_raw_payoffs, dt_waymo_revenue, dt_waymo_share, dtPrice,
          dtCfgDefault, Scenario.mult, min_def, max_def]
      · norm_num [strategy_medium_ne_low, strategy_high_ne_low, strategy_low_eq_low,
          dt_raw_payoffs, dt_waymo_revenue, dt_waymo_share, dtPrice,
          dtCfgDefault, Scenario.mult, min_def, max_def]
      · exact absurd rfl hne
    · rw [dt_cruise_best_raw_iff]
      intro alt hne
      cases alt
      · norm_num [strategy_medium_ne_low, strategy_high_ne_low, strategy_low_eq_low,
          dt_raw_payoffs, dt_cruise_revenue, dt_waymo_share, dtPrice,
          dtCfgDefault, Scenario.mult, min_def, max_def]
      · norm_num [strategy_medium_ne_low, strategy_high_ne_low, strategy_low_eq_low,
          dt_raw_payoffs, dt_cruise_revenue, dt_waymo_share, dtPrice,
          dtCfgDefault, Scenario.mult, min_def, max_def]
      · exact absurd rfl hne
  exact ⟨hms, dt_nash_raw_subset_normalized dtCfgDefault hms _ hraw⟩
